import Mathlib

set_option maxRecDepth 100000

/-!
Verification of the `rusty_controller` command orchestration engine.

The Rust sources (src/main.rs, src/message.rs, src/port_operations.rs,
src/config.rs, src/macros.rs) are shallowly embedded below.  Serial ports
are modelled as streams of delimiter-stripped reply lines (`Env`), the
controller state (`St`) tracks how many lines were consumed from each
port together with `slot_occupancy`, and every observable action (writes
to the router or pump port, sleeps, port drains) is recorded in an event
trace.  `ControlFlow::Continue` / `ControlFlow::Break` results, Rust
panics (`expect` / `unwrap` / `String::remove` on an empty string) and
non-termination of the pump-availability polling loop (cut off by a fuel
parameter) are the four constructors of `StepRes`.

Availability polling (`unlogged_serial_write` of the status query
`/1Q29\r\n` in `await_pump_availability`) is recorded as `Event.pumpPoll`
/ `Event.pumpRead`, distinct from the command writes performed through
`serial_write` (`Event.pumpWrite` / `Event.routerWrite`); this mirrors the
source's logged/unlogged split and the specification's accounting, which
mandates polling before each command yet describes such scenarios as
producing "no device writes".
-/

namespace RustyController

/-! ## Rust string primitives -/

/-- Rust `str::split(sep)` for a one-character separator, on the character
list: `n` separators yield `n + 1` (possibly empty) fragments. -/
def splitChar (sep : Char) : List Char → List (List Char)
  | [] => [[]]
  | c :: rest =>
    match splitChar sep rest with
    | [] => [[]]
    | g :: gs => if c = sep then [] :: g :: gs else (c :: g) :: gs

/-- Rust `str::split(sep)` returning strings. -/
def splitS (sep : Char) (s : String) : List String :=
  (splitChar sep s.data).map String.mk

/-- Strip the first and last character: models `String::remove(0)` followed
by `String::pop()` (the caller must rule out the empty string, on which
`remove(0)` panics). -/
def stripFirstLast (s : String) : String :=
  String.mk (s.data.drop 1).dropLast

/-! ## Rust integer parsing (`str::parse`, `from_str_radix`) -/

/-- Decimal digit value of an ASCII digit. -/
def decDigit? (c : Char) : Option Nat :=
  if c.isDigit then some (c.toNat - 48) else none

/-- Hexadecimal digit value (both cases), as in `from_str_radix(_, 16)`. -/
def hexDigit? (c : Char) : Option Nat :=
  if c.isDigit then some (c.toNat - 48)
  else if 97 ≤ c.toNat ∧ c.toNat ≤ 102 then some (c.toNat - 87)
  else if 65 ≤ c.toNat ∧ c.toNat ≤ 70 then some (c.toNat - 55)
  else none

/-- Value of a non-empty digit string in the given base; `none` on an empty
string or any non-digit character. -/
def digitsVal (base : Nat) (digit? : Char → Option Nat) (cs : List Char) : Option Nat :=
  match cs with
  | [] => none
  | _ :: _ =>
    cs.foldl
      (fun acc c =>
        match acc, digit? c with
        | some a, some d => some (a * base + d)
        | _, _ => none)
      (some 0)

/-- Rust `str::parse::<u64>()`: optional leading `+`, decimal digits,
error on overflow past `2 ^ 64 - 1`. -/
def parse_u64 (s : String) : Option Nat :=
  let cs := match s.data with
    | '+' :: rest => rest
    | cs => cs
  (digitsVal 10 decDigit? cs).bind fun v =>
    if v < 2 ^ 64 then some v else none

/-- Rust `str::parse::<i8>()`: optional sign, decimal digits, range
`-128 ..= 127`. -/
def parse_i8 (s : String) : Option Int :=
  match s.data with
  | '+' :: rest =>
    (digitsVal 10 decDigit? rest).bind fun v =>
      if v ≤ 127 then some (v : Int) else none
  | '-' :: rest =>
    (digitsVal 10 decDigit? rest).bind fun v =>
      if v ≤ 128 then some (-(v : Int)) else none
  | cs =>
    (digitsVal 10 decDigit? cs).bind fun v =>
      if v ≤ 127 then some (v : Int) else none

/-- Rust `u32::from_str_radix(s, 16)`: optional leading `+`, hex digits,
error on overflow past `2 ^ 32 - 1` (a leading `-` is rejected for
unsigned types, which the fall-through non-digit case covers). -/
def parse_u32_hex (s : String) : Option Nat :=
  let cs := match s.data with
    | '+' :: rest => rest
    | cs => cs
  (digitsVal 16 hexDigit? cs).bind fun v =>
    if v < 2 ^ 32 then some v else none

/-! ## CRC-32 (IEEE), as computed by `crc32fast::hash` -/

/-- One shift-and-conditionally-xor round of the reflected CRC-32
algorithm with polynomial `0xEDB88320`. -/
def crc32Round (crc : Nat) : Nat :=
  if crc &&& 1 = 1 then (crc >>> 1) ^^^ 0xEDB88320 else crc >>> 1

/-- Fold one byte into the running CRC. -/
def crc32Byte (crc b : Nat) : Nat :=
  crc32Round (crc32Round (crc32Round (crc32Round
    (crc32Round (crc32Round (crc32Round (crc32Round (crc ^^^ b))))))))

/-- CRC-32/IEEE of a byte list: init `0xFFFFFFFF`, reflected rounds, final
complement.  Agrees with `crc32fast::hash`. -/
def crc32 (bytes : List Nat) : Nat :=
  (bytes.foldl crc32Byte 0xFFFFFFFF) ^^^ 0xFFFFFFFF

/-- UTF-8 encoding of one scalar value (Rust `char`, which excludes
surrogates, so the four ranges below are exhaustive). -/
def utf8Bytes (c : Char) : List Nat :=
  let n := c.toNat
  if n < 0x80 then [n]
  else if n < 0x800 then
    [0xC0 ||| (n >>> 6), 0x80 ||| (n &&& 0x3F)]
  else if n < 0x10000 then
    [0xE0 ||| (n >>> 12), 0x80 ||| ((n >>> 6) &&& 0x3F), 0x80 ||| (n &&& 0x3F)]
  else
    [0xF0 ||| (n >>> 18), 0x80 ||| ((n >>> 12) &&& 0x3F),
     0x80 ||| ((n >>> 6) &&& 0x3F), 0x80 ||| (n &&& 0x3F)]

/-- Rust `str::as_bytes()`. -/
def strBytes (s : String) : List Nat :=
  (s.data.map utf8Bytes).flatten

/-! ## Message codec (src/message.rs) -/

/-- One validated host frame (src/message.rs lines 3-7). -/
structure Message where
  channel : Int
  data : String
  crc : Nat
  deriving DecidableEq

/-- src/message.rs lines 9-22: split the line on `,` into exactly three
parts, parse the channel as `i8` and the checksum as hex `u32`, recompute
CRC-32 over the data bytes, reject on mismatch. -/
def parse_to_message (line : String) : Option Message :=
  match splitS ',' line with
  | [p0, p1, p2] =>
    match parse_i8 p0 with
    | none => none
    | some channel =>
      match parse_u32_hex p2 with
      | none => none
      | some crc =>
        if crc32 (strBytes p1) ≠ crc then none
        else some { channel := channel, data := p1, crc := crc }
  | _ => none

/-! ## Devices, controller state and observable events (src/main.rs) -/

/-- One observable action of the controller.  `routerWrite` / `pumpWrite`
are command writes performed through `serial_write`; `pumpPoll` /
`pumpRead` are the silent `/1Q29` availability-poll traffic performed
through `unlogged_serial_write` / `unlogged_serial_readline`;
`routerRead` is the acknowledgement line read in `router_execute`;
`sleepMs` is `std::thread::sleep`; `flushRouter` / `flushPump` are
`flush_port` drains. -/
inductive Event where
  | routerWrite (s : String)
  | routerRead (s : String)
  | pumpWrite (s : String)
  | pumpPoll (s : String)
  | pumpRead (s : String)
  | sleepMs (n : Nat)
  | flushRouter
  | flushPump
  deriving DecidableEq

/-- The two peripheral reply streams: `routerReply i` (resp. `pumpReply i`)
is the delimiter-stripped line returned by the `i`-th `readline` on the
router (resp. pump) port. -/
structure Env where
  routerReply : Nat → String
  pumpReply : Nat → String

/-- A pump status line that reports idle: non-empty (so `remove(0)` does
not panic) and equal to `/0c` once stripped of its first and last
character. -/
def pumpIdleReply (s : String) : Prop :=
  s.data ≠ [] ∧ stripFirstLast s = "/0c"

/-- Every pump status poll reports idle: the pump acknowledges each
command promptly. -/
def Env.pumpAllIdle (env : Env) : Prop :=
  ∀ i, pumpIdleReply (env.pumpReply i)

/-- Every router reply acknowledges success. -/
def Env.routerAllOk (env : Env) : Prop :=
  ∀ i, env.routerReply i = "G1:OK"

/-- Mutable controller state: how many lines have been consumed from each
port, plus `Controller::slot_occupancy` (src/main.rs line 26). -/
structure St where
  routerIdx : Nat
  pumpIdx : Nat
  slot_occupancy : Nat
  deriving DecidableEq

/-- Outcome of running a controller operation: `cont` / `brk` mirror
`ControlFlow::Continue` / `ControlFlow::Break(msg)` (both carry the
controller state, which survives a batch abort), `panic` is a Rust panic
(process termination), and `stuck` marks exhaustion of the fuel bounding
the unboundedly looping availability poll.  Every constructor carries the
event trace produced up to that point. -/
inductive StepRes where
  | cont (s : St) (t : List Event)
  | brk (msg : String) (s : St) (t : List Event)
  | panic (msg : String) (t : List Event)
  | stuck (t : List Event)
  deriving DecidableEq

namespace StepRes

/-- Events produced by the run. -/
def trace : StepRes → List Event
  | cont _ t => t
  | brk _ _ t => t
  | panic _ t => t
  | stuck t => t

/-- Prepend already-produced events to a result. -/
def withPre (t : List Event) : StepRes → StepRes
  | cont s u => cont s (t ++ u)
  | brk m s u => brk m s (t ++ u)
  | panic m u => panic m (t ++ u)
  | stuck u => stuck (t ++ u)

/-- Sequencing with the `?` operator on `ControlFlow<String>`: a break,
panic or fuel exhaustion short-circuits. -/
def andThen (r : StepRes) (f : St → StepRes) : StepRes :=
  match r with
  | cont s t => withPre t (f s)
  | r => r

/-- The run ended in `ControlFlow::Continue`. -/
def isCont : StepRes → Bool
  | cont _ _ => true
  | _ => false

/-- The run ended in `ControlFlow::Break`. -/
def isBrk : StepRes → Bool
  | brk _ _ _ => true
  | _ => false

/-- The run ended in a Rust panic. -/
def isPanic : StepRes → Bool
  | panic _ _ => true
  | _ => false

/-- Final `slot_occupancy`, when the process is still alive. -/
def endOccupancy : StepRes → Option Nat
  | cont s _ => some s.slot_occupancy
  | brk _ s _ => some s.slot_occupancy
  | _ => none

end StepRes

/-! ## Trace projections -/

/-- Commands written to the router port, in order. -/
def routerWrites : List Event → List String
  | [] => []
  | .routerWrite s :: t => s :: routerWrites t
  | _ :: t => routerWrites t

/-- Commands written to the pump port through `serial_write`, in order
(availability polls excluded, as in the specification's accounting). -/
def pumpCmdWrites : List Event → List String
  | [] => []
  | .pumpWrite s :: t => s :: pumpCmdWrites t
  | _ :: t => pumpCmdWrites t

/-- Pump command writes addressed to pump 1, i.e. whose second character
is `1` (every pump program starts with `/<addr>`). -/
def pump1Writes : List Event → List String
  | [] => []
  | .pumpWrite s :: t =>
    if s.data[1]? = some '1' then s :: pump1Writes t else pump1Writes t
  | _ :: t => pump1Writes t

/-- Durations of all `sleep` calls, in milliseconds, in order. -/
def sleeps : List Event → List Nat
  | [] => []
  | .sleepMs n :: t => n :: sleeps t
  | _ :: t => sleeps t

/-! ## Serial line input (src/port_operations.rs lines 40-56) -/

/-- Byte-level model of `_serial_readline`: consume incoming characters
one at a time, accumulating into `acc`, until the accumulated buffer ends
with the delimiter; return the buffer with the delimiter stripped and the
remaining input.  `none` models blocking forever on exhausted input. -/
def serial_readline (delim : List Char) : List Char → List Char → Option (String × List Char)
  | [], _ => none
  | b :: rest, acc =>
    let acc2 := acc ++ [b]
    if delim.isSuffixOf acc2 then
      some (String.mk (acc2.take (acc2.length - delim.length)), rest)
    else
      serial_readline delim rest acc2

/-! ## Configuration (src/config.rs) -/

/-- The configuration fields the orchestrator reads.  The
`tube-holder-coordinates` table maps a slot id to an `"x:y:z"` string. -/
structure Config where
  constant_cleaning : Bool
  tube_holder_coordinates : List (String × String)

/-- Rust `<[&str; 3]>::try_from(vec).ok()`: succeeds exactly on length 3. -/
def toTriple : List String → Option (String × String × String)
  | [x, y, z] => some (x, y, z)
  | _ => none

/-! ## Controller operations (src/main.rs) -/

/-- The constant availability status query sent to the pump bus. -/
def pollQuery : String := "/1Q29\r\n"

/-- The pump-2 program that empties the slot (src/main.rs line 94). -/
def evacProgram : String := "/2gI1A12000O2A0G4R\r\n"

/-- The pump-1 dispense-into-slot program (src/main.rs line 120). -/
def dispenseProgram : String := "/1gI1A12000O2A0G12R\r\n"

/-- The pump-1 water-rinse program (src/main.rs lines 128 and 144). -/
def waterProgram : String := "/1gI4A12000O1A0G2R\r\n"

/-- The pump-1 air-purge program (src/main.rs line 130). -/
def airProgram : String := "/1gI5A12000O1A0G4R\r\n"

/-- The cleaning-station move (src/main.rs line 126). -/
def cleanMove : String := "G1X227Y152Z-20\r\n"

/-- `format!("/1I1A{vol}O2A0R\r\n")` (src/main.rs line 116). -/
def aspirate_cmd (vol : Nat) : String :=
  "/1I1A" ++ Nat.repr vol ++ "O2A0R\r\n"

/-- `format!("/1I{required_channel}A{pump_vol}O1A0R\r\n")`
(src/main.rs line 142). -/
def ext_aspirate_cmd (ch vol : Nat) : String :=
  "/1I" ++ Nat.repr ch ++ "A" ++ Nat.repr vol ++ "O1A0R\r\n"

/-- src/main.rs lines 182-188: microliters to pump units.  The `u64`
multiplication wraps modulo `2 ^ 64`; the over-12000 condition only logs,
which the trace does not record. -/
def microliter_to_pumpunit (microliters : Nat) : Nat :=
  (microliters * 24) % 2 ^ 64

/-- src/main.rs lines 52-64: poll the pump with `/1Q29` until the reply,
stripped of its first and last character, equals `/0c`; sleep 1 s between
polls.  `String::remove(0)` panics when `readline` returned the empty
string.  The `fuel` parameter bounds how many polls we observe. -/
def await_pump_availability (env : Env) : Nat → St → StepRes
  | 0, _ => .stuck []
  | fuel + 1, st =>
    let status := env.pumpReply st.pumpIdx
    let st1 : St := { st with pumpIdx := st.pumpIdx + 1 }
    if status.data = [] then
      .panic "String::remove: index out of bounds" [.pumpPoll pollQuery, .pumpRead status]
    else if stripFirstLast status = "/0c" then
      .cont st1 [.pumpPoll pollQuery, .pumpRead status]
    else
      .withPre [.pumpPoll pollQuery, .pumpRead status, .sleepMs 1000]
        (await_pump_availability env fuel st1)

/-- src/main.rs lines 30-36: `Controller::router_execute` writes the
command, reads one `\r\n`-terminated reply, continues on `G1:OK` and
otherwise breaks with the error string. -/
def router_execute (env : Env) (st : St) (command : String) : StepRes :=
  let reply := env.routerReply st.routerIdx
  let st1 : St := { st with routerIdx := st.routerIdx + 1 }
  if reply = "G1:OK" then
    .cont st1 [.routerWrite command, .routerRead reply]
  else
    .brk ("Router - error executing command: [" ++ command ++ "]") st1
      [.routerWrite command, .routerRead reply]

/-- src/main.rs lines 38-43: `Controller::pump_execute` drains the pump
port, writes the command, sleeps 1 s, then waits for availability. -/
def pump_execute (env : Env) (fuel : Nat) (st : St) (command : String) : StepRes :=
  .withPre [.flushPump, .pumpWrite command, .sleepMs 1000]
    (await_pump_availability env fuel st)

/-- src/main.rs lines 91-96: if the slot still holds fluid, run the
pump-2 evacuation program and zero `slot_occupancy`. -/
def evacuate_if_occupied (env : Env) (fuel : Nat) (st : St) : StepRes :=
  if st.slot_occupancy > 0 then
    (pump_execute env fuel st evacProgram).andThen fun st1 =>
      .cont { st1 with slot_occupancy := 0 } []
  else
    .cont st []

/-- The fixed slot-to-aspirate-channel table of the `match` in
src/main.rs lines 135-140: `34→4, 35→7, 36→6`, nothing else. -/
def external_channel : Nat → Option Nat
  | 34 => some 4
  | 35 => some 7
  | 36 => some 6
  | _ => none

/-- src/main.rs lines 134-146: `handle_external_liquid_application` maps
slot 34/35/36 to aspirate channel 4/7/6 (anything else breaks), runs the
channel aspirate and then the water program. -/
def handle_external_liquid_application (env : Env) (fuel : Nat) (st : St)
    (fromNumber vol : Nat) : StepRes :=
  match external_channel fromNumber with
  | none => .brk "Developer is dumb" st []
  | some required_channel =>
    (pump_execute env fuel st (ext_aspirate_cmd required_channel (microliter_to_pumpunit vol))).andThen
      fun st1 =>
        (pump_execute env fuel st1 waterProgram).andThen fun st2 =>
          .cont st2 []

/-- src/main.rs lines 98-131, the part of `handle_liquid_application`
after the evacuation step: split the token on `_`; a missing part 1
breaks (`unwrap_option!` with message); the coordinate lookup and its
split into exactly three `:`-fields panic via `.expect(...)` when absent
or malformed; a non-numeric slot id breaks (`unwrap_result!`); a missing
or non-numeric part 3 volume panics via `.unwrap()`; slot ids above 33
take the external path; otherwise run the move / aspirate / lift /
dispense script, record the new occupancy, and clean when
`constant_cleaning` is set. -/
def la_after_evac (cfg : Config) (env : Env) (fuel : Nat) (st : St) (command : String) : StepRes :=
  let parts := splitS '_' command
  match parts[1]? with
  | none => .brk "Cannot deduce 'from' part" st []
  | some fromPart =>
    match ((List.lookup fromPart cfg.tube_holder_coordinates).map (splitS ':')).bind toTriple with
    | none => .panic ("Couldn't find x/y/z coordinates from command: " ++ command) []
    | some (x, y, z) =>
      match parse_u64 fromPart with
      | none => .brk "Failed to execute command" st []
      | some fromNumber =>
        match parts[3]?.bind parse_u64 with
        | none => .panic "called Option::unwrap() on a None value" []
        | some volMicroliter =>
          if fromNumber > 33 then
            handle_external_liquid_application env fuel st fromNumber volMicroliter
          else
            (router_execute env st ("G1X" ++ x ++ "Y" ++ y ++ "Z" ++ z ++ "\r\n")).andThen fun st1 =>
              (pump_execute env fuel st1 (aspirate_cmd (microliter_to_pumpunit volMicroliter))).andThen fun st2 =>
                (router_execute env st2 ("G1X" ++ x ++ "Y" ++ y ++ "Z0\r\n")).andThen fun st3 =>
                  (pump_execute env fuel st3 dispenseProgram).andThen fun st4 =>
                    let st5 : St := { st4 with slot_occupancy := volMicroliter }
                    if cfg.constant_cleaning = false then
                      .cont st5 []
                    else
                      (router_execute env st5 cleanMove).andThen fun st6 =>
                        (pump_execute env fuel st6 waterProgram).andThen fun st7 =>
                          (pump_execute env fuel st7 airProgram).andThen fun st8 =>
                            .cont st8 []

/-- src/main.rs lines 86-132: `handle_liquid_application` drains both
device ports, evacuates a still-occupied slot, then runs the rest of the
liquid-application script. -/
def handle_liquid_application (cfg : Config) (env : Env) (fuel : Nat) (st : St)
    (command : String) : StepRes :=
  .withPre [.flushRouter, .flushPump]
    ((evacuate_if_occupied env fuel st).andThen fun st1 =>
      la_after_evac cfg env fuel st1 command)

/-- src/main.rs lines 148-156: `handle_waiting_command` parses part 1 as
`u64` milliseconds (panicking via `.expect(...)` when missing or
non-numeric) and sleeps. -/
def handle_waiting_command (st : St) (command : String) : StepRes :=
  match (splitS '_' command)[1]?.bind parse_u64 with
  | none => .panic "Cannot get time for wait command" []
  | some time => .cont st [.sleepMs time]

/-- src/main.rs lines 66-82: `execute_command` first waits for pump
availability, then dispatches on the part before the first `_`. -/
def execute_command (cfg : Config) (env : Env) (fuel : Nat) (st : St)
    (command : String) : StepRes :=
  (await_pump_availability env fuel st).andThen fun st1 =>
    match (splitS '_' command)[0]? with
    | none => .panic "Cannot get command type" []
    | some commandType =>
      if commandType = "LA" then handle_liquid_application cfg env fuel st1 command
      else if commandType = "W" then handle_waiting_command st1 command
      else if commandType = "TC" then .cont st1 []
      else if commandType = "BTC" then .cont st1 []
      else .brk ("Unknown Command " ++ command) st1 []

/-- `data.split(' ').try_for_each(...)` (src/main.rs line 172): run the
tokens left to right, short-circuiting on break. -/
def run_commands (cfg : Config) (env : Env) (fuel : Nat) : List String → St → StepRes
  | [], st => .cont st []
  | c :: cs, st =>
    (execute_command cfg env fuel st c).andThen fun st1 =>
      run_commands cfg env fuel cs st1

/-- src/main.rs lines 167-176: `handle_message` drops any message whose
channel differs from 4, and otherwise executes the space-separated
tokens of its data. -/
def handle_message (cfg : Config) (env : Env) (fuel : Nat) (st : St) (msg : Message) : StepRes :=
  if msg.channel ≠ 4 then
    .cont st []
  else
    run_commands cfg env fuel (splitS ' ' msg.data) st

/-! ## Concrete instances used by counterexamples and witnesses -/

/-- An environment whose router always acknowledges and whose pump always
reports idle (`a/0cb` strips to `/0c`). -/
def envOk : Env :=
  { routerReply := fun _ => "G1:OK", pumpReply := fun _ => "a/0cb" }

/-- Fresh controller state. -/
def st0 : St := { routerIdx := 0, pumpIdx := 0, slot_occupancy := 0 }

/-- A configuration knowing only slot 7, with cleaning enabled. -/
def cfgSlot7 : Config :=
  { constant_cleaning := true, tube_holder_coordinates := [("7", "10:20:-5")] }

/-- A configuration with an empty coordinate table. -/
def cfgEmpty : Config :=
  { constant_cleaning := true, tube_holder_coordinates := [] }

/-- A configuration knowing only the external slot 34. -/
def cfg34 : Config :=
  { constant_cleaning := true, tube_holder_coordinates := [("34", "1:2:3")] }

/-- A configuration knowing only slot 37 (above the external range). -/
def cfg37 : Config :=
  { constant_cleaning := true, tube_holder_coordinates := [("37", "1:2:3")] }

/-- A configuration whose coordinate table is keyed by a non-numeric slot
string. -/
def cfgAbc : Config :=
  { constant_cleaning := true, tube_holder_coordinates := [("abc", "1:2:3")] }

/-! ## General lemmas about runs and traces -/

theorem trace_withPre (t : List Event) (r : StepRes) :
    (StepRes.withPre t r).trace = t ++ r.trace := by
  cases r <;> rfl

theorem andThen_cont (s : St) (t : List Event) (f : St → StepRes) :
    (StepRes.cont s t).andThen f = StepRes.withPre t (f s) := rfl

theorem withPre_withPre (t u : List Event) (r : StepRes) :
    StepRes.withPre t (StepRes.withPre u r) = StepRes.withPre (t ++ u) r := by
  cases r <;> simp [StepRes.withPre]

theorem trace_andThen (r : StepRes) (f : St → StepRes) :
    (r.andThen f).trace =
      r.trace ++ (match r with
                  | .cont s _ => (f s).trace
                  | _ => []) := by
  cases r with
  | cont s t => rw [andThen_cont, trace_withPre]; rfl
  | brk m s t => simp [StepRes.andThen, StepRes.trace]
  | panic m t => simp [StepRes.andThen, StepRes.trace]
  | stuck t => simp [StepRes.andThen, StepRes.trace]

theorem string_ne_of_data_ne {a b : String} (h : a.data ≠ b.data) : a ≠ b :=
  fun e => h (congrArg String.data e)

theorem withPre_nil (r : StepRes) : StepRes.withPre [] r = r := by
  cases r <;> simp [StepRes.withPre]

theorem withPre_andThen (t : List Event) (r : StepRes) (f : St → StepRes) :
    (StepRes.withPre t r).andThen f = StepRes.withPre t (r.andThen f) := by
  cases r with
  | cont s u =>
    rw [show StepRes.withPre t (StepRes.cont s u) = StepRes.cont s (t ++ u) from rfl,
      andThen_cont, andThen_cont, withPre_withPre]
  | brk m s u => rfl
  | panic m u => rfl
  | stuck u => rfl

/-! ## Success-path computation lemmas -/

theorem await_ok (env : Env) (fuel : Nat) (st : St)
    (h : pumpIdleReply (env.pumpReply st.pumpIdx)) :
    await_pump_availability env (fuel + 1) st =
      .cont { st with pumpIdx := st.pumpIdx + 1 }
        [.pumpPoll pollQuery, .pumpRead (env.pumpReply st.pumpIdx)] := by
  obtain ⟨h1, h2⟩ := h
  simp only [await_pump_availability]
  rw [if_neg h1, if_pos h2]

theorem pump_execute_ok (env : Env) (fuel : Nat) (st : St) (cmd : String)
    (h : pumpIdleReply (env.pumpReply st.pumpIdx)) :
    pump_execute env (fuel + 1) st cmd =
      .cont { st with pumpIdx := st.pumpIdx + 1 }
        [.flushPump, .pumpWrite cmd, .sleepMs 1000,
         .pumpPoll pollQuery, .pumpRead (env.pumpReply st.pumpIdx)] := by
  unfold pump_execute
  rw [await_ok env fuel st h]
  rfl

theorem router_execute_ok (env : Env) (st : St) (cmd : String)
    (h : env.routerReply st.routerIdx = "G1:OK") :
    router_execute env st cmd =
      .cont { st with routerIdx := st.routerIdx + 1 }
        [.routerWrite cmd, .routerRead "G1:OK"] := by
  simp only [router_execute]
  rw [if_pos h, h]

/-! ## Command-string address facts -/

theorem aspirate_cmd_addr (v : Nat) : (aspirate_cmd v).data[1]? = some '1' := by
  unfold aspirate_cmd
  generalize Nat.repr v = t
  cases t
  rfl

theorem ext_aspirate_cmd_addr (c v : Nat) : (ext_aspirate_cmd c v).data[1]? = some '1' := by
  unfold ext_aspirate_cmd
  generalize Nat.repr c = t
  generalize Nat.repr v = u
  cases t
  cases u
  rfl

theorem evacProgram_addr : evacProgram.data[1]? = some '2' := rfl

theorem dispenseProgram_addr : dispenseProgram.data[1]? = some '1' := rfl

theorem waterProgram_addr : waterProgram.data[1]? = some '1' := rfl

theorem airProgram_addr : airProgram.data[1]? = some '1' := rfl

theorem ne_of_addr {a b : String} (h : a.data[1]? ≠ b.data[1]?) : a ≠ b :=
  fun e => h (by rw [e])

theorem pump1Writes_cons_keep {s : String} (h : s.data[1]? = some '1') (t : List Event) :
    pump1Writes (.pumpWrite s :: t) = s :: pump1Writes t := by
  simp only [pump1Writes]
  rw [if_pos h]

theorem pump1Writes_cons_drop {s : String} (h : s.data[1]? = some '2') (t : List Event) :
    pump1Writes (.pumpWrite s :: t) = pump1Writes t := by
  simp only [pump1Writes]
  rw [if_neg (by rw [h]; decide)]


/-! ## Liquid-application script lemmas -/

theorem la_after_evac_normal (cfg : Config) (env : Env) (fuel : Nat) (st : St)
    (command slotStr volStr coordsStr x y z : String) (slotId v : Nat)
    (hROk : env.routerAllOk) (hPIdle : env.pumpAllIdle)
    (hcc : cfg.constant_cleaning = true)
    (h1 : (splitS '_' command)[1]? = some slotStr)
    (h3 : (splitS '_' command)[3]? = some volStr)
    (hlk : List.lookup slotStr cfg.tube_holder_coordinates = some coordsStr)
    (hco : splitS ':' coordsStr = [x, y, z])
    (hsid : parse_u64 slotStr = some slotId)
    (hle : slotId ≤ 33)
    (hv : parse_u64 volStr = some v) :
    la_after_evac cfg env (fuel + 1) st command =
      .cont { st with routerIdx := st.routerIdx + 3, pumpIdx := st.pumpIdx + 4, slot_occupancy := v }
        [.routerWrite ("G1X" ++ x ++ "Y" ++ y ++ "Z" ++ z ++ "\r\n"), .routerRead "G1:OK",
         .flushPump, .pumpWrite (aspirate_cmd (microliter_to_pumpunit v)), .sleepMs 1000,
         .pumpPoll pollQuery, .pumpRead (env.pumpReply st.pumpIdx),
         .routerWrite ("G1X" ++ x ++ "Y" ++ y ++ "Z0\r\n"), .routerRead "G1:OK",
         .flushPump, .pumpWrite dispenseProgram, .sleepMs 1000,
         .pumpPoll pollQuery, .pumpRead (env.pumpReply (st.pumpIdx + 1)),
         .routerWrite cleanMove, .routerRead "G1:OK",
         .flushPump, .pumpWrite waterProgram, .sleepMs 1000,
         .pumpPoll pollQuery, .pumpRead (env.pumpReply (st.pumpIdx + 2)),
         .flushPump, .pumpWrite airProgram, .sleepMs 1000,
         .pumpPoll pollQuery, .pumpRead (env.pumpReply (st.pumpIdx + 3))] := by
  have hPI : ∀ i, pumpIdleReply (env.pumpReply i) := hPIdle
  have hRO : ∀ i, env.routerReply i = "G1:OK" := hROk
  have h33 : ¬ (slotId > 33) := by omega
  simp only [la_after_evac, h1, hlk, hco, hsid, h3, hv, Option.map_some', Option.some_bind,
    toTriple, h33, if_false, hcc]
  simp only [hRO, hPI, router_execute_ok, pump_execute_ok, andThen_cont, withPre_withPre,
    withPre_andThen, List.cons_append, List.nil_append, Bool.true_eq_false, if_false]
  rfl

theorem handle_la_occupancy_zero (cfg : Config) (env : Env) (fuel : Nat) (st : St)
    (command : String) (hocc : st.slot_occupancy = 0) :
    handle_liquid_application cfg env fuel st command =
      StepRes.withPre [.flushRouter, .flushPump] (la_after_evac cfg env fuel st command) := by
  have hev : evacuate_if_occupied env fuel st = .cont st [] := by
    unfold evacuate_if_occupied
    rw [hocc]
    rfl
  unfold handle_liquid_application
  rw [hev, andThen_cont, withPre_nil]

theorem handle_la_occupancy_pos (cfg : Config) (env : Env) (fuel : Nat) (st : St)
    (command : String) (hocc : 0 < st.slot_occupancy)
    (hfirst : pumpIdleReply (env.pumpReply st.pumpIdx)) :
    handle_liquid_application cfg env (fuel + 1) st command =
      StepRes.withPre
        [.flushRouter, .flushPump, .flushPump, .pumpWrite evacProgram, .sleepMs 1000,
         .pumpPoll pollQuery, .pumpRead (env.pumpReply st.pumpIdx)]
        (la_after_evac cfg env (fuel + 1)
          { st with pumpIdx := st.pumpIdx + 1, slot_occupancy := 0 } command) := by
  have hev : evacuate_if_occupied env (fuel + 1) st =
      .cont { st with pumpIdx := st.pumpIdx + 1, slot_occupancy := 0 }
        [.flushPump, .pumpWrite evacProgram, .sleepMs 1000,
         .pumpPoll pollQuery, .pumpRead (env.pumpReply st.pumpIdx)] := by
    unfold evacuate_if_occupied
    rw [if_pos hocc, pump_execute_ok env fuel st evacProgram hfirst, andThen_cont]
    rfl
  unfold handle_liquid_application
  rw [hev, andThen_cont, withPre_withPre]
  rfl

theorem handle_ext_ok (env : Env) (fuel : Nat) (st : St) (a b ch : Nat)
    (hPIdle : env.pumpAllIdle) (hm : external_channel a = some ch) :
    handle_external_liquid_application env (fuel + 1) st a b =
      .cont { st with pumpIdx := st.pumpIdx + 1 + 1 }
        [.flushPump, .pumpWrite (ext_aspirate_cmd ch (microliter_to_pumpunit b)), .sleepMs 1000,
         .pumpPoll pollQuery, .pumpRead (env.pumpReply st.pumpIdx),
         .flushPump, .pumpWrite waterProgram, .sleepMs 1000,
         .pumpPoll pollQuery, .pumpRead (env.pumpReply (st.pumpIdx + 1))] := by
  have hPI : ∀ i, pumpIdleReply (env.pumpReply i) := hPIdle
  unfold handle_external_liquid_application
  simp only [hm, hPI, pump_execute_ok, andThen_cont, withPre_withPre,
    List.cons_append, List.nil_append]
  rfl

theorem handle_ext_abort (env : Env) (fuel : Nat) (st : St) (a b : Nat)
    (hm : external_channel a = none) :
    handle_external_liquid_application env fuel st a b = .brk "Developer is dumb" st [] := by
  unfold handle_external_liquid_application
  simp only [hm]

theorem la_after_evac_ext (cfg : Config) (env : Env) (fuel : Nat) (st : St)
    (command slotStr volStr x y z : String) (slotId v ch : Nat)
    (hPIdle : env.pumpAllIdle)
    (h1 : (splitS '_' command)[1]? = some slotStr)
    (h3 : (splitS '_' command)[3]? = some volStr)
    (hlk : ((List.lookup slotStr cfg.tube_holder_coordinates).map (splitS ':')).bind toTriple =
      some (x, y, z))
    (hsid : parse_u64 slotStr = some slotId)
    (hv : parse_u64 volStr = some v)
    (hm : external_channel slotId = some ch)
    (hgt : 33 < slotId) :
    la_after_evac cfg env (fuel + 1) st command =
      .cont { st with pumpIdx := st.pumpIdx + 1 + 1 }
        [.flushPump, .pumpWrite (ext_aspirate_cmd ch (microliter_to_pumpunit v)), .sleepMs 1000,
         .pumpPoll pollQuery, .pumpRead (env.pumpReply st.pumpIdx),
         .flushPump, .pumpWrite waterProgram, .sleepMs 1000,
         .pumpPoll pollQuery, .pumpRead (env.pumpReply (st.pumpIdx + 1))] := by
  simp only [la_after_evac, h1, hlk, hsid, h3, hv, Option.some_bind]
  rw [if_pos hgt]
  exact handle_ext_ok env fuel st slotId v ch hPIdle hm

theorem la_after_evac_ext_abort (cfg : Config) (env : Env) (fuel : Nat) (st : St)
    (command slotStr volStr x y z : String) (slotId v : Nat)
    (h1 : (splitS '_' command)[1]? = some slotStr)
    (h3 : (splitS '_' command)[3]? = some volStr)
    (hlk : ((List.lookup slotStr cfg.tube_holder_coordinates).map (splitS ':')).bind toTriple =
      some (x, y, z))
    (hsid : parse_u64 slotStr = some slotId)
    (hv : parse_u64 volStr = some v)
    (hm : external_channel slotId = none)
    (hgt : 33 < slotId) :
    la_after_evac cfg env fuel st command = .brk "Developer is dumb" st [] := by
  simp only [la_after_evac, h1, hlk, hsid, h3, hv, Option.some_bind]
  rw [if_pos hgt]
  exact handle_ext_abort env fuel st slotId v hm

/-! ## Trace-membership lemmas for the evacuation program -/

theorem pumpCmdWrites_append (a b : List Event) :
    pumpCmdWrites (a ++ b) = pumpCmdWrites a ++ pumpCmdWrites b := by
  induction a with
  | nil => simp [pumpCmdWrites]
  | cons e t ih => cases e <;> simp [pumpCmdWrites, ih]

theorem mem_pumpCmdWrites {s : String} {t : List Event} :
    s ∈ pumpCmdWrites t ↔ Event.pumpWrite s ∈ t := by
  induction t with
  | nil => simp [pumpCmdWrites]
  | cons e t ih => cases e <;> simp [pumpCmdWrites, ih]

theorem pumpWrite_not_in_await (env : Env) (s : String) :
    ∀ (fuel : Nat) (st : St), Event.pumpWrite s ∉ (await_pump_availability env fuel st).trace := by
  intro fuel
  induction fuel with
  | zero => intro st; simp [await_pump_availability, StepRes.trace]
  | succ n ih =>
    intro st
    simp only [await_pump_availability]
    split
    · simp [StepRes.trace]
    · split
      · simp [StepRes.trace]
      · rw [trace_withPre]
        simp [ih]

theorem not_mem_trace_andThen {e : Event} {r : StepRes} {f : St → StepRes}
    (h1 : e ∉ r.trace) (h2 : ∀ s, e ∉ (f s).trace) : e ∉ (r.andThen f).trace := by
  cases r with
  | cont s t =>
    rw [andThen_cont, trace_withPre]
    intro hm
    rcases List.mem_append.mp hm with hh | hh
    · exact h1 hh
    · exact h2 s hh
  | brk m s t => exact h1
  | panic m t => exact h1
  | stuck t => exact h1

theorem pumpWrite_not_in_pump_execute {s c : String} (h : s ≠ c)
    (env : Env) (fuel : Nat) (st : St) :
    Event.pumpWrite s ∉ (pump_execute env fuel st c).trace := by
  unfold pump_execute
  rw [trace_withPre]
  intro hm
  rcases List.mem_append.mp hm with hh | hh
  · simp at hh
    exact h hh
  · exact pumpWrite_not_in_await env s fuel st hh

theorem pumpWrite_not_in_router_execute (env : Env) (st : St) (c s : String) :
    Event.pumpWrite s ∉ (router_execute env st c).trace := by
  simp only [router_execute]
  split <;> simp [StepRes.trace]

theorem evac_ne_aspirate (v : Nat) : evacProgram ≠ aspirate_cmd v :=
  ne_of_addr (by rw [evacProgram_addr, aspirate_cmd_addr]; decide)

theorem evac_ne_ext_aspirate (c v : Nat) : evacProgram ≠ ext_aspirate_cmd c v :=
  ne_of_addr (by rw [evacProgram_addr, ext_aspirate_cmd_addr]; decide)

theorem evac_not_in_ext (env : Env) (fuel : Nat) (st : St) (a b : Nat) :
    Event.pumpWrite evacProgram ∉ (handle_external_liquid_application env fuel st a b).trace := by
  unfold handle_external_liquid_application
  split
  · simp [StepRes.trace]
  · apply not_mem_trace_andThen
    · exact pumpWrite_not_in_pump_execute (evac_ne_ext_aspirate _ _) env fuel st
    · intro s2
      apply not_mem_trace_andThen
      · exact pumpWrite_not_in_pump_execute (by decide) env fuel s2
      · intro s3
        simp [StepRes.trace]

theorem evac_not_in_la_after_evac (cfg : Config) (env : Env) (fuel : Nat) (st : St)
    (command : String) :
    Event.pumpWrite evacProgram ∉ (la_after_evac cfg env fuel st command).trace := by
  simp only [la_after_evac]
  split
  · simp [StepRes.trace]
  · split
    · simp [StepRes.trace]
    · split
      · simp [StepRes.trace]
      · split
        · simp [StepRes.trace]
        · split
          · exact evac_not_in_ext env fuel st _ _
          · apply not_mem_trace_andThen
            · exact pumpWrite_not_in_router_execute env st _ _
            · intro s1
              apply not_mem_trace_andThen
              · exact pumpWrite_not_in_pump_execute (evac_ne_aspirate _) env fuel s1
              · intro s2
                apply not_mem_trace_andThen
                · exact pumpWrite_not_in_router_execute env s2 _ _
                · intro s3
                  apply not_mem_trace_andThen
                  · exact pumpWrite_not_in_pump_execute (by decide) env fuel s3
                  · intro s4
                    split
                    · simp [StepRes.trace]
                    · apply not_mem_trace_andThen
                      · exact pumpWrite_not_in_router_execute env _ _ _
                      · intro s6
                        apply not_mem_trace_andThen
                        · exact pumpWrite_not_in_pump_execute (by decide) env fuel s6
                        · intro s7
                          apply not_mem_trace_andThen
                          · exact pumpWrite_not_in_pump_execute (by decide) env fuel s7
                          · intro s8
                            simp [StepRes.trace]

theorem envOk_pumpAllIdle : envOk.pumpAllIdle := by
  intro i
  show pumpIdleReply "a/0cb"
  exact ⟨by decide, by decide⟩

theorem envOk_routerAllOk : envOk.routerAllOk := fun _ => rfl

/-! ## Claim theorems -/

/-- C5: `parse_to_message` returns a `Message` exactly when the line
splits on `,` into exactly three parts, part 0 parses as a signed 8-bit
integer, part 2 parses as a hexadecimal unsigned 32-bit integer, and the
CRC-32 (IEEE) of part 1's bytes equals that integer; the produced
`Message` carries those three values, so for every accepted `Message` the
recomputed CRC-32 of `data` equals the parsed `crc`. -/
theorem parse_to_message_characterization (line : String) (m : Message) :
    parse_to_message line = some m ↔
      ∃ p0 p2, splitS ',' line = [p0, m.data, p2] ∧
        parse_i8 p0 = some m.channel ∧
        parse_u32_hex p2 = some m.crc ∧
        crc32 (strBytes m.data) = m.crc := by
  obtain ⟨ch, d, crc⟩ := m
  constructor
  · intro h
    rcases hsp : splitS ',' line with _ | ⟨p0, _ | ⟨p1, _ | ⟨p2, _ | ⟨p3, rest⟩⟩⟩⟩ <;>
        simp only [parse_to_message, hsp] at h <;>
      try exact Option.noConfusion h
    rcases h0 : parse_i8 p0 with _ | ch0 <;> simp only [h0] at h <;>
      try exact Option.noConfusion h
    rcases h2 : parse_u32_hex p2 with _ | crc0 <;> simp only [h2] at h <;>
      try exact Option.noConfusion h
    simp only [ne_eq, ite_not] at h
    split at h
    · rename_i hcrc
      simp only [Option.some.injEq, Message.mk.injEq] at h
      obtain ⟨hch, hd, hc⟩ := h
      subst hch; subst hd; subst hc
      exact ⟨p0, p2, rfl, h0, h2, hcrc⟩
    · exact Option.noConfusion h
  · rintro ⟨p0, p2, hsp, h0, h2, hcrc⟩
    simp only [parse_to_message, hsp, h0, h2]
    simp [hcrc]

/-- C5 witness: the concrete line `4,W_150,7e3e868f` is accepted, carrying
channel 4, data `W_150` and the CRC-32 of `W_150`. -/
theorem parse_to_message_characterization_witness :
    parse_to_message "4,W_150,7e3e868f" =
      some { channel := 4, data := "W_150", crc := 0x7e3e868f } :=
  (parse_to_message_characterization "4,W_150,7e3e868f"
      { channel := 4, data := "W_150", crc := 0x7e3e868f }).mpr
    ⟨"4", "7e3e868f", by decide, by decide, by decide, by decide⟩

/-- C6: `router_execute` writes the command to the router port, reads one
reply line, and continues exactly when the delimiter-stripped reply is
`G1:OK`; any other reply breaks with exactly the string
`Router - error executing command: [<cmd>]`. -/
theorem router_execute_spec (env : Env) (st : St) (cmd : String) :
    (router_execute env st cmd =
      if env.routerReply st.routerIdx = "G1:OK" then
        StepRes.cont { st with routerIdx := st.routerIdx + 1 }
          [.routerWrite cmd, .routerRead (env.routerReply st.routerIdx)]
      else
        StepRes.brk ("Router - error executing command: [" ++ cmd ++ "]")
          { st with routerIdx := st.routerIdx + 1 }
          [.routerWrite cmd, .routerRead (env.routerReply st.routerIdx)]) ∧
    ((router_execute env st cmd).isCont = true ↔ env.routerReply st.routerIdx = "G1:OK") := by
  by_cases hr : env.routerReply st.routerIdx = "G1:OK"
  · refine ⟨?_, ?_⟩
    · simp [router_execute, hr]
    · simp [router_execute, hr, StepRes.isCont]
  · refine ⟨?_, ?_⟩
    · simp [router_execute, hr]
    · simp [router_execute, hr, StepRes.isCont]

/-- C7: handling any accepted message whose channel differs from 4
produces no events at all — no device writes, no sleeps — and leaves the
controller state (including `slotOccupancy`) unchanged. -/
theorem handle_message_wrong_channel (cfg : Config) (env : Env) (fuel : Nat) (st : St)
    (line : String) (m : Message) (hacc : parse_to_message line = some m)
    (hch : m.channel ≠ 4) :
    handle_message cfg env fuel st m = .cont st [] ∧
    routerWrites (handle_message cfg env fuel st m).trace = [] ∧
    pumpCmdWrites (handle_message cfg env fuel st m).trace = [] ∧
    sleeps (handle_message cfg env fuel st m).trace = [] ∧
    (handle_message cfg env fuel st m).endOccupancy = some st.slot_occupancy := by
  have h : handle_message cfg env fuel st m = .cont st [] := by
    unfold handle_message
    rw [if_pos hch]
  exact ⟨h, by rw [h]; rfl, by rw [h]; rfl, by rw [h]; rfl, by rw [h]; rfl⟩

/-- C7 witness: a concrete accepted message on channel 3 is dropped
without any event. -/
theorem handle_message_wrong_channel_witness :
    handle_message cfgSlot7 envOk 1 st0 { channel := 3, data := "W_150", crc := 0x7e3e868f } = .cont st0 [] ∧
    routerWrites (handle_message cfgSlot7 envOk 1 st0 { channel := 3, data := "W_150", crc := 0x7e3e868f }).trace = [] ∧
    pumpCmdWrites (handle_message cfgSlot7 envOk 1 st0 { channel := 3, data := "W_150", crc := 0x7e3e868f }).trace = [] ∧
    sleeps (handle_message cfgSlot7 envOk 1 st0 { channel := 3, data := "W_150", crc := 0x7e3e868f }).trace = [] ∧
    (handle_message cfgSlot7 envOk 1 st0 { channel := 3, data := "W_150", crc := 0x7e3e868f }).endOccupancy = some st0.slot_occupancy :=
  handle_message_wrong_channel cfgSlot7 envOk 1 st0 "3,W_150,7e3e868f"
    { channel := 3, data := "W_150", crc := 0x7e3e868f } (by decide) (by decide)

/-- C10: `readline` returns a pump reply consisting of only the `\r\n`
delimiter as the empty string, and `await_pump_availability` then panics
in `String::remove(0)` instead of treating the pump as busy and polling
again. -/
theorem await_pump_availability_empty_reply_panics :
    (∀ rest : List Char,
        serial_readline ['\r', '\n'] ('\r' :: '\n' :: rest) [] = some ("", rest)) ∧
    (∀ (env : Env) (fuel : Nat) (st : St),
        env.pumpReply st.pumpIdx = "" →
        await_pump_availability env (fuel + 1) st =
          .panic "String::remove: index out of bounds" [.pumpPoll pollQuery, .pumpRead ""]) := by
  constructor
  · intro rest
    rfl
  · intro env fuel st h
    unfold await_pump_availability
    rw [h]
    rfl

/-- C10 witness: with a pump that answers the first poll with a bare
`\r\n`, the concrete run panics. -/
theorem await_pump_availability_empty_reply_panics_witness :
    serial_readline ['\r', '\n'] ['\r', '\n'] [] = some ("", []) ∧
    await_pump_availability { routerReply := fun _ => "G1:OK", pumpReply := fun _ => "" } 1 st0 =
      .panic "String::remove: index out of bounds" [.pumpPoll pollQuery, .pumpRead ""] :=
  ⟨await_pump_availability_empty_reply_panics.1 [],
   await_pump_availability_empty_reply_panics.2
     { routerReply := fun _ => "G1:OK", pumpReply := fun _ => "" } 0 st0 rfl⟩

/-- C9: the coordinate lookup for the slot id — including the check that
the configured value splits into exactly three `:`-separated fields —
panics via `.expect` whenever it fails, before the `slotId > 33`
external-source test is reached: for any slot string (in particular 34,
35 or 36) whose table entry is missing or malformed, the whole liquid
application panics with only the two port drains in its trace, instead of
taking the fast path or breaking the batch. -/
theorem la_lookup_panics_before_external_test (cfg : Config) (env : Env) (fuel : Nat)
    (st : St) (command slotStr : String)
    (hocc : st.slot_occupancy = 0)
    (hpart : (splitS '_' command)[1]? = some slotStr)
    (hlk : ((List.lookup slotStr cfg.tube_holder_coordinates).map (splitS ':')).bind toTriple = none) :
    handle_liquid_application cfg env fuel st command =
      .panic ("Couldn't find x/y/z coordinates from command: " ++ command)
        [.flushRouter, .flushPump] := by
  have hev : evacuate_if_occupied env fuel st = .cont st [] := by
    unfold evacuate_if_occupied
    rw [hocc]
    rfl
  have hla : la_after_evac cfg env fuel st command =
      .panic ("Couldn't find x/y/z coordinates from command: " ++ command) [] := by
    simp only [la_after_evac, hpart, hlk]
  unfold handle_liquid_application
  rw [hev, andThen_cont, hla]
  rfl

/-- C9 witness: slot 34 with an empty coordinate table panics rather than
taking the external fast path. -/
theorem la_lookup_panics_before_external_test_witness :
    handle_liquid_application cfgEmpty envOk 1 st0 "LA_34_x_100" =
      .panic ("Couldn't find x/y/z coordinates from command: " ++ "LA_34_x_100")
        [.flushRouter, .flushPump] :=
  la_lookup_panics_before_external_test cfgEmpty envOk 1 st0 "LA_34_x_100" "34"
    rfl (by decide) (by decide)

/-- C1: for every LA command with a slot id at most 33 whose configured
coordinates are `x:y:z`, volume `v` microliters (`24·v` within `u64`
range), `constantCleaning` true, and every device reply acknowledging
success, the router port receives exactly `G1X{x}Y{y}Z{z}\r\n`,
`G1X{x}Y{y}Z0\r\n`, `G1X227Y152Z-20\r\n` in that order, pump 1
receives exactly `/1I1A{24·v}O2A0R\r\n`, `/1gI1A12000O2A0G12R\r\n`,
`/1gI4A12000O1A0G2R\r\n`, `/1gI5A12000O1A0G4R\r\n` in that order, the
command continues, and `slotOccupancy` ends equal to `v`.  (The silent
`/1Q29` availability polls are status queries, not command writes, and
are accounted separately, as in the specification.) -/
theorem la_normal_slot_script
    (cfg : Config) (env : Env) (fuel : Nat) (st : St)
    (command slotStr volStr coordsStr x y z : String) (slotId v : Nat)
    (hROk : env.routerAllOk) (hPIdle : env.pumpAllIdle)
    (hcc : cfg.constant_cleaning = true)
    (h1 : (splitS '_' command)[1]? = some slotStr)
    (h3 : (splitS '_' command)[3]? = some volStr)
    (hlk : List.lookup slotStr cfg.tube_holder_coordinates = some coordsStr)
    (hco : splitS ':' coordsStr = [x, y, z])
    (hsid : parse_u64 slotStr = some slotId)
    (hle : slotId ≤ 33)
    (hv : parse_u64 volStr = some v)
    (hnof : 24 * v < 2 ^ 64) :
    (handle_liquid_application cfg env (fuel + 1) st command).isCont = true ∧
    routerWrites (handle_liquid_application cfg env (fuel + 1) st command).trace =
      ["G1X" ++ x ++ "Y" ++ y ++ "Z" ++ z ++ "\r\n",
       "G1X" ++ x ++ "Y" ++ y ++ "Z0\r\n",
       "G1X227Y152Z-20\r\n"] ∧
    pump1Writes (handle_liquid_application cfg env (fuel + 1) st command).trace =
      ["/1I1A" ++ Nat.repr (24 * v) ++ "O2A0R\r\n",
       "/1gI1A12000O2A0G12R\r\n",
       "/1gI4A12000O1A0G2R\r\n",
       "/1gI5A12000O1A0G4R\r\n"] ∧
    (handle_liquid_application cfg env (fuel + 1) st command).endOccupancy = some v := by
  have hmu : microliter_to_pumpunit v = 24 * v := by
    unfold microliter_to_pumpunit
    rw [Nat.mul_comm v 24, Nat.mod_eq_of_lt hnof]
  rcases Nat.eq_zero_or_pos st.slot_occupancy with h0 | h0
  · have hR := handle_la_occupancy_zero cfg env (fuel + 1) st command h0
    rw [la_after_evac_normal cfg env fuel st command slotStr volStr coordsStr x y z slotId v
      hROk hPIdle hcc h1 h3 hlk hco hsid hle hv] at hR
    refine ⟨?_, ?_, ?_, ?_⟩ <;> rw [hR] <;>
      simp [StepRes.withPre, StepRes.trace, StepRes.isCont, StepRes.endOccupancy,
        routerWrites, pump1Writes, hmu, aspirate_cmd_addr, dispenseProgram_addr,
        waterProgram_addr, airProgram_addr, evacProgram_addr, aspirate_cmd,
        dispenseProgram, waterProgram, airProgram, cleanMove]
  · have hR := handle_la_occupancy_pos cfg env fuel st command h0 (hPIdle st.pumpIdx)
    rw [la_after_evac_normal cfg env fuel
      { st with pumpIdx := st.pumpIdx + 1, slot_occupancy := 0 } command slotStr volStr
      coordsStr x y z slotId v hROk hPIdle hcc h1 h3 hlk hco hsid hle hv] at hR
    refine ⟨?_, ?_, ?_, ?_⟩ <;> rw [hR] <;>
      simp [StepRes.withPre, StepRes.trace, StepRes.isCont, StepRes.endOccupancy,
        routerWrites, pump1Writes, hmu, aspirate_cmd_addr, dispenseProgram_addr,
        waterProgram_addr, airProgram_addr, evacProgram_addr, aspirate_cmd,
        dispenseProgram, waterProgram, airProgram, cleanMove]

/-- C1 witness: slot 7 at `10:20:-5`, volume 100 microliters, cleaning
enabled, every reply acknowledged. -/
theorem la_normal_slot_script_witness :
    (handle_liquid_application cfgSlot7 envOk 1 st0 "LA_7_x_100").isCont = true ∧
    routerWrites (handle_liquid_application cfgSlot7 envOk 1 st0 "LA_7_x_100").trace =
      ["G1X" ++ "10" ++ "Y" ++ "20" ++ "Z" ++ "-5" ++ "\r\n",
       "G1X" ++ "10" ++ "Y" ++ "20" ++ "Z0\r\n",
       "G1X227Y152Z-20\r\n"] ∧
    pump1Writes (handle_liquid_application cfgSlot7 envOk 1 st0 "LA_7_x_100").trace =
      ["/1I1A" ++ Nat.repr (24 * 100) ++ "O2A0R\r\n",
       "/1gI1A12000O2A0G12R\r\n",
       "/1gI4A12000O1A0G2R\r\n",
       "/1gI5A12000O1A0G4R\r\n"] ∧
    (handle_liquid_application cfgSlot7 envOk 1 st0 "LA_7_x_100").endOccupancy = some 100 :=
  la_normal_slot_script cfgSlot7 envOk 0 st0 "LA_7_x_100" "7" "100" "10:20:-5" "10" "20" "-5"
    7 100 envOk_routerAllOk envOk_pumpAllIdle rfl (by decide) (by decide)
    (by decide) (by decide) (by decide) (by decide) (by decide) (by decide)

/-- C2: every LA that begins executing while `slotOccupancy > 0` (with the
pump acknowledging) first drains both ports, then sends pump 2 the
evacuation program `/2gI1A12000O2A0G4R\r\n` — exactly once over the whole
run — and zeroes `slotOccupancy`, all before the rest of the handler
(which performs the coordinate lookup) runs and before any router command
is written: the prefix contains no router write, and the evacuation
program never reappears in the continuation. -/
theorem la_evacuates_occupied_slot_first (cfg : Config) (env : Env) (fuel : Nat) (st : St)
    (command : String) (hocc : 0 < st.slot_occupancy) (hPIdle : env.pumpAllIdle) :
    handle_liquid_application cfg env (fuel + 1) st command =
      StepRes.withPre
        [.flushRouter, .flushPump, .flushPump, .pumpWrite evacProgram, .sleepMs 1000,
         .pumpPoll pollQuery, .pumpRead (env.pumpReply st.pumpIdx)]
        (la_after_evac cfg env (fuel + 1)
          { st with pumpIdx := st.pumpIdx + 1, slot_occupancy := 0 } command) ∧
    ({ st with pumpIdx := st.pumpIdx + 1, slot_occupancy := 0 } : St).slot_occupancy = 0 ∧
    routerWrites
      [Event.flushRouter, .flushPump, .flushPump, .pumpWrite evacProgram, .sleepMs 1000,
       .pumpPoll pollQuery, .pumpRead (env.pumpReply st.pumpIdx)] = [] ∧
    pumpCmdWrites
      [Event.flushRouter, .flushPump, .flushPump, .pumpWrite evacProgram, .sleepMs 1000,
       .pumpPoll pollQuery, .pumpRead (env.pumpReply st.pumpIdx)] = [evacProgram] ∧
    (pumpCmdWrites (handle_liquid_application cfg env (fuel + 1) st command).trace).count
      evacProgram = 1 := by
  have hR := handle_la_occupancy_pos cfg env fuel st command hocc (hPIdle st.pumpIdx)
  refine ⟨hR, rfl, by simp [routerWrites], by simp [pumpCmdWrites], ?_⟩
  rw [hR, trace_withPre, pumpCmdWrites_append, List.count_append]
  have hpre : pumpCmdWrites
      [Event.flushRouter, .flushPump, .flushPump, .pumpWrite evacProgram, .sleepMs 1000,
       .pumpPoll pollQuery, .pumpRead (env.pumpReply st.pumpIdx)] = [evacProgram] := by
    simp [pumpCmdWrites]
  rw [hpre]
  have hrest : (pumpCmdWrites (la_after_evac cfg env (fuel + 1)
      { st with pumpIdx := st.pumpIdx + 1, slot_occupancy := 0 } command).trace).count
      evacProgram = 0 := by
    rw [List.count_eq_zero]
    intro hm
    exact evac_not_in_la_after_evac cfg env (fuel + 1) _ command (mem_pumpCmdWrites.mp hm)
  rw [hrest]
  rfl

/-- C2 witness: a second LA for slot 7 finding 50 microliters of residue
evacuates through pump 2 exactly once before any router write. -/
theorem la_evacuates_occupied_slot_first_witness :
    handle_liquid_application cfgSlot7 envOk 1
        { routerIdx := 0, pumpIdx := 0, slot_occupancy := 50 } "LA_7_x_100" =
      StepRes.withPre
        [.flushRouter, .flushPump, .flushPump, .pumpWrite evacProgram, .sleepMs 1000,
         .pumpPoll pollQuery, .pumpRead "a/0cb"]
        (la_after_evac cfgSlot7 envOk 1
          { routerIdx := 0, pumpIdx := 1, slot_occupancy := 0 } "LA_7_x_100") ∧
    ({ routerIdx := 0, pumpIdx := 1, slot_occupancy := 0 } : St).slot_occupancy = 0 ∧
    routerWrites
      [Event.flushRouter, .flushPump, .flushPump, .pumpWrite evacProgram, .sleepMs 1000,
       .pumpPoll pollQuery, .pumpRead "a/0cb"] = [] ∧
    pumpCmdWrites
      [Event.flushRouter, .flushPump, .flushPump, .pumpWrite evacProgram, .sleepMs 1000,
       .pumpPoll pollQuery, .pumpRead "a/0cb"] = [evacProgram] ∧
    (pumpCmdWrites (handle_liquid_application cfgSlot7 envOk 1
        { routerIdx := 0, pumpIdx := 0, slot_occupancy := 50 } "LA_7_x_100").trace).count
      evacProgram = 1 :=
  la_evacuates_occupied_slot_first cfgSlot7 envOk 0
    { routerIdx := 0, pumpIdx := 0, slot_occupancy := 50 } "LA_7_x_100"
    (by decide) envOk_pumpAllIdle

/-- C3 as stated is false: an LA whose slot id is 34, 35 or 36 does not
take the external fast path when the slot has no well-formed coordinate
entry — the coordinate lookup panics first (C9).  Concretely, `LA_35_x_60`
under a configuration without an entry for 35 panics instead of
continuing. -/
theorem la_external_fast_path_cx :
    (handle_liquid_application cfgSlot7 envOk 1 st0 "LA_35_x_60").isPanic = true ∧
    (handle_liquid_application cfgSlot7 envOk 1 st0 "LA_35_x_60").isCont = false ∧
    pump1Writes (handle_liquid_application cfgSlot7 envOk 1 st0 "LA_35_x_60").trace = [] := by
  decide

/-- C3 (amended): provided the slot id also has a well-formed coordinate
entry and a numeric volume, an LA with slot id 34, 35 or 36 takes the
external-source fast path — no router command is written, pump 1 receives
the aspirate `/1I{ch}A{24·v}O1A0R\r\n` with channel 4, 7, 6 respectively
followed by `/1gI4A12000O1A0G2R\r\n`, and the command continues — while
any other slot id above 33 aborts the batch with break. -/
theorem la_external_fast_path :
    (∀ (cfg : Config) (env : Env) (fuel : Nat) (st : St)
       (command slotStr volStr x y z : String) (slotId v ch : Nat),
      env.pumpAllIdle → st.slot_occupancy = 0 →
      (splitS '_' command)[1]? = some slotStr →
      (splitS '_' command)[3]? = some volStr →
      ((List.lookup slotStr cfg.tube_holder_coordinates).map (splitS ':')).bind toTriple =
        some (x, y, z) →
      parse_u64 slotStr = some slotId →
      parse_u64 volStr = some v →
      ((slotId = 34 ∧ ch = 4) ∨ (slotId = 35 ∧ ch = 7) ∨ (slotId = 36 ∧ ch = 6)) →
      24 * v < 2 ^ 64 →
      (handle_liquid_application cfg env (fuel + 1) st command).isCont = true ∧
      routerWrites (handle_liquid_application cfg env (fuel + 1) st command).trace = [] ∧
      pump1Writes (handle_liquid_application cfg env (fuel + 1) st command).trace =
        ["/1I" ++ Nat.repr ch ++ "A" ++ Nat.repr (24 * v) ++ "O1A0R\r\n",
         "/1gI4A12000O1A0G2R\r\n"]) ∧
    (∀ (cfg : Config) (env : Env) (fuel : Nat) (st : St)
       (command slotStr volStr x y z : String) (slotId v : Nat),
      st.slot_occupancy = 0 →
      (splitS '_' command)[1]? = some slotStr →
      (splitS '_' command)[3]? = some volStr →
      ((List.lookup slotStr cfg.tube_holder_coordinates).map (splitS ':')).bind toTriple =
        some (x, y, z) →
      parse_u64 slotStr = some slotId →
      parse_u64 volStr = some v →
      33 < slotId → slotId ≠ 34 → slotId ≠ 35 → slotId ≠ 36 →
      handle_liquid_application cfg env fuel st command =
        .brk "Developer is dumb" st [.flushRouter, .flushPump]) := by
  constructor
  · intro cfg env fuel st command slotStr volStr x y z slotId v ch
      hPIdle hocc h1 h3 hlk hsid hv hch hnof
    have hmu : microliter_to_pumpunit v = 24 * v := by
      unfold microliter_to_pumpunit
      rw [Nat.mul_comm v 24, Nat.mod_eq_of_lt hnof]
    have hm : external_channel slotId = some ch := by
      rcases hch with ⟨ha, hc⟩ | ⟨ha, hc⟩ | ⟨ha, hc⟩ <;> subst ha <;> subst hc <;> rfl
    have hgt : 33 < slotId := by
      rcases hch with ⟨ha, _⟩ | ⟨ha, _⟩ | ⟨ha, _⟩ <;> omega
    have hR := handle_la_occupancy_zero cfg env (fuel + 1) st command hocc
    rw [la_after_evac_ext cfg env fuel st command slotStr volStr x y z slotId v ch
      hPIdle h1 h3 hlk hsid hv hm hgt] at hR
    refine ⟨?_, ?_, ?_⟩ <;> rw [hR] <;>
      simp [StepRes.withPre, StepRes.trace, StepRes.isCont, routerWrites, pump1Writes,
        hmu, ext_aspirate_cmd_addr, waterProgram_addr, ext_aspirate_cmd, waterProgram]
  · intro cfg env fuel st command slotStr volStr x y z slotId v
      hocc h1 h3 hlk hsid hv hgt h34 h35 h36
    have hm : external_channel slotId = none := by
      unfold external_channel
      split
      · exact absurd rfl h34
      · exact absurd rfl h35
      · exact absurd rfl h36
      · rfl
    have hR := handle_la_occupancy_zero cfg env fuel st command hocc
    rw [la_after_evac_ext_abort cfg env fuel st command slotStr volStr x y z slotId v
      h1 h3 hlk hsid hv hm hgt] at hR
    rw [hR]
    rfl

/-- C3 witness: slot 34 (with a well-formed entry) aspirates on channel 4
and cleans, with no router write; slot 37 aborts the batch with break. -/
theorem la_external_fast_path_witness :
    ((handle_liquid_application cfg34 envOk 1 st0 "LA_34_x_100").isCont = true ∧
     routerWrites (handle_liquid_application cfg34 envOk 1 st0 "LA_34_x_100").trace = [] ∧
     pump1Writes (handle_liquid_application cfg34 envOk 1 st0 "LA_34_x_100").trace =
       ["/1I" ++ Nat.repr 4 ++ "A" ++ Nat.repr (24 * 100) ++ "O1A0R\r\n",
        "/1gI4A12000O1A0G2R\r\n"]) ∧
    handle_liquid_application cfg37 envOk 1 st0 "LA_37_x_100" =
      .brk "Developer is dumb" st0 [.flushRouter, .flushPump] :=
  ⟨la_external_fast_path.1 cfg34 envOk 0 st0 "LA_34_x_100" "34" "100" "1" "2" "3" 34 100 4
     envOk_pumpAllIdle rfl (by decide) (by decide) (by decide) (by decide) (by decide)
     (Or.inl ⟨rfl, rfl⟩) (by decide),
   la_external_fast_path.2 cfg37 envOk 1 st0 "LA_37_x_100" "37" "100" "1" "2" "3" 37 100
     rfl (by decide) (by decide) (by decide) (by decide) (by decide) (by decide)
     (by decide) (by decide) (by decide)⟩

/-- C4 as stated is false: an LA token whose slot id has no coordinate
entry does not abort the batch with a break — it panics (terminates the
process) in the `.expect` of the coordinate lookup.  Concretely,
`LA_99_x_100` under a configuration knowing only slot 7. -/
theorem la_error_handling_cx :
    (handle_liquid_application cfgSlot7 envOk 1 st0 "LA_99_x_100").isPanic = true ∧
    (handle_liquid_application cfgSlot7 envOk 1 st0 "LA_99_x_100").isBrk = false := by
  decide

/-- C4 (amended): an LA token with no slot field aborts the batch with
break `Cannot deduce 'from' part`; one whose slot has a well-formed
coordinate entry but is not numeric aborts with break
`Failed to execute command`; but a missing or malformed coordinate entry,
or a missing or non-numeric volume field, panics the process (descriptive
message, process termination) instead of returning a break. -/
theorem la_error_handling :
    (∀ (cfg : Config) (env : Env) (fuel : Nat) (st : St) (command : String),
      st.slot_occupancy = 0 →
      (splitS '_' command)[1]? = none →
      handle_liquid_application cfg env fuel st command =
        .brk "Cannot deduce 'from' part" st [.flushRouter, .flushPump]) ∧
    (∀ (cfg : Config) (env : Env) (fuel : Nat) (st : St) (command slotStr : String),
      st.slot_occupancy = 0 →
      (splitS '_' command)[1]? = some slotStr →
      ((List.lookup slotStr cfg.tube_holder_coordinates).map (splitS ':')).bind toTriple =
        none →
      handle_liquid_application cfg env fuel st command =
        .panic ("Couldn't find x/y/z coordinates from command: " ++ command)
          [.flushRouter, .flushPump]) ∧
    (∀ (cfg : Config) (env : Env) (fuel : Nat) (st : St) (command slotStr x y z : String),
      st.slot_occupancy = 0 →
      (splitS '_' command)[1]? = some slotStr →
      ((List.lookup slotStr cfg.tube_holder_coordinates).map (splitS ':')).bind toTriple =
        some (x, y, z) →
      parse_u64 slotStr = none →
      handle_liquid_application cfg env fuel st command =
        .brk "Failed to execute command" st [.flushRouter, .flushPump]) ∧
    (∀ (cfg : Config) (env : Env) (fuel : Nat) (st : St) (command slotStr x y z : String)
       (slotId : Nat),
      st.slot_occupancy = 0 →
      (splitS '_' command)[1]? = some slotStr →
      ((List.lookup slotStr cfg.tube_holder_coordinates).map (splitS ':')).bind toTriple =
        some (x, y, z) →
      parse_u64 slotStr = some slotId →
      (splitS '_' command)[3]?.bind parse_u64 = none →
      handle_liquid_application cfg env fuel st command =
        .panic "called Option::unwrap() on a None value" [.flushRouter, .flushPump]) := by
  refine ⟨?_, ?_, ?_, ?_⟩
  · intro cfg env fuel st command hocc h1
    rw [handle_la_occupancy_zero cfg env fuel st command hocc]
    have hla : la_after_evac cfg env fuel st command =
        .brk "Cannot deduce 'from' part" st [] := by
      simp only [la_after_evac, h1]
    rw [hla]
    rfl
  · intro cfg env fuel st command slotStr hocc h1 hlk
    rw [handle_la_occupancy_zero cfg env fuel st command hocc]
    have hla : la_after_evac cfg env fuel st command =
        .panic ("Couldn't find x/y/z coordinates from command: " ++ command) [] := by
      simp only [la_after_evac, h1, hlk]
    rw [hla]
    rfl
  · intro cfg env fuel st command slotStr x y z hocc h1 hlk hsid
    rw [handle_la_occupancy_zero cfg env fuel st command hocc]
    have hla : la_after_evac cfg env fuel st command =
        .brk "Failed to execute command" st [] := by
      simp only [la_after_evac, h1, hlk, hsid]
    rw [hla]
    rfl
  · intro cfg env fuel st command slotStr x y z slotId hocc h1 hlk hsid h3
    rw [handle_la_occupancy_zero cfg env fuel st command hocc]
    have hla : la_after_evac cfg env fuel st command =
        .panic "called Option::unwrap() on a None value" [] := by
      simp only [la_after_evac, h1, hlk, hsid, h3]
    rw [hla]
    rfl

/-- C4 witness: the four concrete error shapes — a bare `LA`, an unknown
slot 99, a non-numeric slot keyed in the table, and a missing volume. -/
theorem la_error_handling_witness :
    handle_liquid_application cfgSlot7 envOk 1 st0 "LA" =
      .brk "Cannot deduce 'from' part" st0 [.flushRouter, .flushPump] ∧
    handle_liquid_application cfgSlot7 envOk 1 st0 "LA_99_x_50" =
      .panic ("Couldn't find x/y/z coordinates from command: " ++ "LA_99_x_50")
        [.flushRouter, .flushPump] ∧
    handle_liquid_application cfgAbc envOk 1 st0 "LA_abc_x_50" =
      .brk "Failed to execute command" st0 [.flushRouter, .flushPump] ∧
    handle_liquid_application cfgSlot7 envOk 1 st0 "LA_7_x" =
      .panic "called Option::unwrap() on a None value" [.flushRouter, .flushPump] :=
  ⟨la_error_handling.1 cfgSlot7 envOk 1 st0 "LA" rfl (by decide),
   la_error_handling.2.1 cfgSlot7 envOk 1 st0 "LA_99_x_50" "99" rfl (by decide) (by decide),
   la_error_handling.2.2.1 cfgAbc envOk 1 st0 "LA_abc_x_50" "abc" "1" "2" "3" rfl
     (by decide) (by decide) (by decide),
   la_error_handling.2.2.2 cfgSlot7 envOk 1 st0 "LA_7_x" "7" "10" "20" "-5" 7 rfl
     (by decide) (by decide) (by decide) (by decide)⟩

/-- C8: executing a valid message whose data is the single token `W_150`
(channel 4, correct CRC) sleeps 150 milliseconds and produces no command
writes to the router or pump port; the only pump-bus traffic is the one
availability-poll exchange that guards every command. -/
theorem wait_command_sleeps (cfg : Config) (env : Env) (fuel : Nat) (st : St)
    (line : String) (m : Message)
    (hacc : parse_to_message line = some m) (hch : m.channel = 4)
    (hd : m.data = "W_150") (hPIdle : env.pumpAllIdle) :
    handle_message cfg env (fuel + 1) st m =
      .cont { st with pumpIdx := st.pumpIdx + 1 }
        [.pumpPoll pollQuery, .pumpRead (env.pumpReply st.pumpIdx), .sleepMs 150] ∧
    routerWrites (handle_message cfg env (fuel + 1) st m).trace = [] ∧
    pumpCmdWrites (handle_message cfg env (fuel + 1) st m).trace = [] ∧
    sleeps (handle_message cfg env (fuel + 1) st m).trace = [150] := by
  have hexe : execute_command cfg env (fuel + 1) st "W_150" =
      .cont { st with pumpIdx := st.pumpIdx + 1 }
        [.pumpPoll pollQuery, .pumpRead (env.pumpReply st.pumpIdx), .sleepMs 150] := by
    unfold execute_command
    rw [await_ok env fuel st (hPIdle st.pumpIdx), andThen_cont]
    rfl
  have hmain : handle_message cfg env (fuel + 1) st m =
      .cont { st with pumpIdx := st.pumpIdx + 1 }
        [.pumpPoll pollQuery, .pumpRead (env.pumpReply st.pumpIdx), .sleepMs 150] := by
    unfold handle_message
    rw [if_neg (by rw [hch]; decide), hd]
    show (execute_command cfg env (fuel + 1) st "W_150").andThen
        (fun st1 => run_commands cfg env (fuel + 1) [] st1) = _
    rw [hexe, andThen_cont]
    rfl
  exact ⟨hmain, by rw [hmain]; rfl, by rw [hmain]; rfl, by rw [hmain]; rfl⟩

/-- C8 witness: the concrete frame `4,W_150,7e3e868f` sleeps 150 ms with
no command writes. -/
theorem wait_command_sleeps_witness :
    handle_message cfgSlot7 envOk 1 st0 { channel := 4, data := "W_150", crc := 0x7e3e868f } =
      .cont { routerIdx := 0, pumpIdx := 1, slot_occupancy := 0 }
        [.pumpPoll pollQuery, .pumpRead "a/0cb", .sleepMs 150] ∧
    routerWrites (handle_message cfgSlot7 envOk 1 st0
      { channel := 4, data := "W_150", crc := 0x7e3e868f }).trace = [] ∧
    pumpCmdWrites (handle_message cfgSlot7 envOk 1 st0
      { channel := 4, data := "W_150", crc := 0x7e3e868f }).trace = [] ∧
    sleeps (handle_message cfgSlot7 envOk 1 st0
      { channel := 4, data := "W_150", crc := 0x7e3e868f }).trace = [150] :=
  wait_command_sleeps cfgSlot7 envOk 0 st0 "4,W_150,7e3e868f"
    { channel := 4, data := "W_150", crc := 0x7e3e868f } (by decide) rfl rfl
    envOk_pumpAllIdle

end RustyController
